import Mathlib

/-!
Shallow embedding of `src/crawler.py` (class `PIPACrawler`) from the
PIPA_dataset repository, together with proofs about its behaviour.

Network I/O, the filesystem and the HTML extraction heuristics are made
explicit: HTTP responses are supplied by an environment (`Env`), the
filesystem is a map from paths to payloads (`FS`), and side effects
(requests, sleeps) are recorded in traces so that statements such as
"no network request is issued" can be expressed.
-/

namespace PIPA

/-- Python's `str.startswith(p)` / `str.startswith((p1, p2))` (one prefix at
a time): a Boolean prefix test on the character data. -/
def pyStartswith (s p : String) : Bool :=
  p.data.isPrefixOf s.data

/-- Splitting a character list on runs of whitespace, accumulating the
(reversed) current field: the recursion behind `pySplit`. -/
def splitWsAux : List Char → List Char → List String
  | [], acc => if acc.isEmpty then [] else [String.mk acc.reverse]
  | c :: cs, acc =>
    if c.isWhitespace then
      if acc.isEmpty then splitWsAux cs []
      else String.mk acc.reverse :: splitWsAux cs []
    else splitWsAux cs (c :: acc)

/-- Python's `str.split()` with no argument: split on runs of whitespace,
dropping empty fields. -/
def pySplit (s : String) : List String :=
  splitWsAux s.data []

/-- Dropping leading whitespace characters. -/
def dropLeadingWs : List Char → List Char
  | [] => []
  | c :: cs => if c.isWhitespace then dropLeadingWs cs else c :: cs

/-- Python's `str.strip()`: remove leading and trailing whitespace. -/
def pyStrip (s : String) : String :=
  String.mk (dropLeadingWs (dropLeadingWs s.data).reverse).reverse

/-- Whether `pat` occurs as a contiguous sublist of the second list. -/
def containsSub (pat : List Char) : List Char → Bool
  | [] => pat.isEmpty
  | c :: cs => pat.isPrefixOf (c :: cs) || containsSub pat cs

/-- Python's `needle in haystack` substring test. -/
def strContains (haystack needle : String) : Bool :=
  containsSub needle.data haystack.data

/-- Python's `str.lower()` for the ASCII strings the crawler handles. -/
def pyLower (s : String) : String :=
  String.mk (s.data.map Char.toLower)

/-- Python's `os.path.join(dir, name)` for the shapes used by the crawler
(a relative directory with no trailing slash, or the empty string). -/
def joinPath (dir name : String) : String :=
  if dir = "" then name else dir ++ "/" ++ name

/-- Python's `f'{idx:05d}'`: decimal rendering left-padded with zeros to a
minimum width of five. -/
def pad5 (n : Nat) : String :=
  let s := toString n
  String.mk (List.replicate (5 - s.length) '0') ++ s

/-- Crawler configuration: the constructor arguments of `PIPACrawler`
(`data_file` is replaced by the list of its lines). -/
structure Config where
  output_dir : String
  max_retries : Nat
  delay : Nat

/-- `PIPACrawler._ensure_url_scheme` (crawler.py lines 45-59). -/
def ensure_url_scheme (url : String) : String :=
  if pyStartswith url "//" then
    "https:" ++ url
  else if !(pyStartswith url "http://" || pyStartswith url "https://") then
    "https://" ++ url
  else
    url

/-- Python truthiness of the `limit` argument in
`if limit and i >= limit: break`: `None` and `0` are falsy. -/
def limitTruthy : Option Nat → Bool
  | none => false
  | some l => l != 0

/-- The loop body of `PIPACrawler.parse_image_ids` (crawler.py lines 72-78):
`i` is the current 0-based line number. `break` on a truthy limit that has
been reached; otherwise strip, split, and keep `(i, parts[1])` when at
least two fields are present. -/
def parseLoop (limit : Option Nat) : List String → Nat → List (Nat × String)
  | [], _ => []
  | line :: rest, i =>
    if limitTruthy limit && decide (limit.getD 0 ≤ i) then
      []
    else
      let parts := pySplit (pyStrip line)
      if 2 ≤ parts.length then
        (i, parts.getD 1 "") :: parseLoop limit rest (i + 1)
      else
        parseLoop limit rest (i + 1)

/-- `PIPACrawler.parse_image_ids` (crawler.py lines 61-79), with the data
file given as its list of lines. -/
def parse_image_ids (lines : List String) (limit : Option Nat) :
    List (Nat × String) :=
  parseLoop limit lines 0

/-- Outcome of one `requests.get` of a photo page: a response with a status
code and a body text, or a transport exception. -/
inductive PageOutcome where
  | ok (status : Nat) (body : String)
  | exn
deriving DecidableEq, Repr

/-- The body of an image download response: the number of bytes streamed
to disk, and the result of `PIL.Image.open` on those bytes (`some (w, h)`
when they decode as an image with those pixel dimensions). -/
structure Payload where
  size : Nat
  dims : Option (Nat × Nat)
deriving DecidableEq, Repr

/-- Outcome of one `requests.get` of an image URL. -/
inductive DlOutcome where
  | ok (status : Nat) (payload : Payload)
  | exn
deriving DecidableEq, Repr

/-- The external world: `pageResp pid attempt` is the response to the
`attempt`-th page fetch for photo id `pid`; `extract body` is the
`available_sizes` mapping that the BeautifulSoup heuristics (methods 1-4,
crawler.py lines 104-204) produce from a 200 page body; `dlResp url
attempt` is the response to the `attempt`-th download of `url`. -/
structure Env where
  pageResp : String → Nat → PageOutcome
  extract : String → List (String × String)
  dlResp : String → Nat → DlOutcome

/-- The retry loop of `PIPACrawler.get_image_urls` (crawler.py lines
93-224): `attempt` is the current 0-based attempt index, `fuel` the number
of attempts left. Returns the resolution result and the list of sleep
durations performed (`time.sleep(self.delay * (attempt + 1))`). -/
def getUrlsLoop (cfg : Config) (env : Env) (pid : String) :
    Nat → Nat → Option (List (String × String)) × List Nat
  | _, 0 => (none, [])
  | attempt, fuel + 1 =>
    match env.pageResp pid attempt with
    | .ok status body =>
      if status = 200 then
        if strContains body "This photo is private" then
          (none, [])
        else
          let sizes := env.extract body
          if sizes.isEmpty then (none, [])
          else (some sizes, [])
      else if status = 404 then
        (none, [])
      else
        let r := getUrlsLoop cfg env pid (attempt + 1) fuel
        (r.1, cfg.delay * (attempt + 1) :: r.2)
    | .exn =>
      let r := getUrlsLoop cfg env pid (attempt + 1) fuel
      (r.1, cfg.delay * (attempt + 1) :: r.2)

/-- `PIPACrawler.get_image_urls` (crawler.py lines 81-224): resolve a photo
id to its `available_sizes` mapping, retrying up to `max_retries` times.
Returns the result together with the sleeps performed. -/
def get_image_urls (cfg : Config) (env : Env) (pid : String) :
    Option (List (String × String)) × List Nat :=
  getUrlsLoop cfg env pid 0 cfg.max_retries

/-- The filesystem under the output directory: a map from paths to the
payload stored at that path. -/
def FS : Type := String → Option Payload

/-- Writing a downloaded payload to `path` (`open(filename, 'wb')`). -/
def FS.write (fs : FS) (path : String) (p : Payload) : FS :=
  fun x => if x = path then some p else fs x

/-- `os.remove(path)`. -/
def FS.remove (fs : FS) (path : String) : FS :=
  fun x => if x = path then none else fs x

/-- An observable side effect of `download_image`: a call into the resolver
(`self.get_image_urls`, which performs the page fetches), an HTTP GET of an
image URL, or a sleep for the given duration. -/
inductive Event where
  | resolveCall
  | httpGet (url : String)
  | sleepFor (d : Nat)
deriving DecidableEq, Repr

/-- The per-URL attempt loop of `PIPACrawler.download_image` (crawler.py
lines 269-304, textually repeated at lines 311-346): try to download `url`
to `filename` up to `fuel` more times, `attempt` being the current 0-based
attempt index. On a 200 response the payload is written to disk, then
discarded (`os.remove`) if it is empty or does not decode as an image; a
410 abandons the URL at once (`break`); any other status or a transport
exception sleeps `delay * (attempt + 1)` and retries. Returns the decoded
dimensions on success, the filesystem, and the trace of events. -/
def attemptLoop (cfg : Config) (env : Env) (url filename : String) :
    Nat → Nat → FS → Option (Nat × Nat) × FS × List Event
  | _, 0, fs => (none, fs, [])
  | attempt, fuel + 1, fs =>
    match env.dlResp url attempt with
    | .ok status payload =>
      if status = 200 then
        let fs1 := fs.write filename payload
        if 0 < payload.size then
          match payload.dims with
          | some wh => (some wh, fs1, [.httpGet url])
          | none =>
            let fs2 := fs1.remove filename
            let r := attemptLoop cfg env url filename (attempt + 1) fuel fs2
            (r.1, r.2.1,
              .httpGet url :: .sleepFor (cfg.delay * (attempt + 1)) :: r.2.2)
        else
          let fs2 := fs1.remove filename
          let r := attemptLoop cfg env url filename (attempt + 1) fuel fs2
          (r.1, r.2.1,
            .httpGet url :: .sleepFor (cfg.delay * (attempt + 1)) :: r.2.2)
      else if status = 410 then
        (none, fs, [.httpGet url])
      else
        let r := attemptLoop cfg env url filename (attempt + 1) fuel fs
        (r.1, r.2.1,
          .httpGet url :: .sleepFor (cfg.delay * (attempt + 1)) :: r.2.2)
    | .exn =>
      let r := attemptLoop cfg env url filename (attempt + 1) fuel fs
      (r.1, r.2.1,
        .httpGet url :: .sleepFor (cfg.delay * (attempt + 1)) :: r.2.2)

/-- Iterating candidate URLs in order, running the attempt loop on each and
short-circuiting on the first success (the outer `for` loops of
`download_image`). -/
def tryUrls (cfg : Config) (env : Env) (filename : String) :
    List String → FS → Option (Nat × Nat) × FS × List Event
  | [], fs => (none, fs, [])
  | url :: rest, fs =>
    let r := attemptLoop cfg env url filename 0 cfg.max_retries fs
    match r.1 with
    | some wh => (some wh, r.2.1, r.2.2)
    | none =>
      let r2 := tryUrls cfg env filename rest r.2.1
      (r2.1, r2.2.1, r.2.2 ++ r2.2.2)

/-- The size priority list of `download_image` (crawler.py lines 258-261). -/
def size_priority : List String :=
  ["Large HD", "Large", "Medium 800", "Medium 640",
   "Medium", "OpenGraph", "TwitterCard", "Small 320", "Small"]

/-- Return value of `download_image`: `(success, filename_or_message,
resolution)`. -/
abbrev DLRet := Bool × String × (Nat × Nat)

/-- `PIPACrawler.download_image` (crawler.py lines 226-348). The target
path is `{idx:05d}.jpg` in the output directory; an existing file that
opens as an image is returned at once with no network traffic; otherwise
the photo id is resolved and the candidate URLs are tried in size-priority
order, then any remaining URLs in mapping order. Returns the result
tuple, the filesystem, and the trace of events. -/
def download_image (cfg : Config) (env : Env) (idx : Nat)
    (photo_id : String) (fs : FS) : DLRet × FS × List Event :=
  let filename := joinPath cfg.output_dir (pad5 idx ++ ".jpg")
  let fresh : DLRet × FS × List Event :=
    match (get_image_urls cfg env photo_id).1 with
    | none => ((false, "Could not find any image URLs", (0, 0)), fs,
        [.resolveCall])
    | some urls =>
      if urls.isEmpty then
        ((false, "Could not find any image URLs", (0, 0)), fs,
          [.resolveCall])
      else
        let priorityUrls := size_priority.filterMap fun n => urls.lookup n
        let r1 := tryUrls cfg env filename priorityUrls fs
        match r1.1 with
        | some wh => ((true, filename, wh), r1.2.1, .resolveCall :: r1.2.2)
        | none =>
          let remaining :=
            (urls.filter fun nv => !(size_priority.contains nv.1)).map
              fun nv => nv.2
          let r2 := tryUrls cfg env filename remaining r1.2.1
          match r2.1 with
          | some wh =>
            ((true, filename, wh), r2.2.1, .resolveCall :: (r1.2.2 ++ r2.2.2))
          | none =>
            ((false, "Failed to download after trying all available URLs",
                (0, 0)),
              r2.2.1, .resolveCall :: (r1.2.2 ++ r2.2.2))
  match fs filename with
  | some p =>
    match p.dims with
    | some wh => ((true, filename, wh), fs, [])
    | none => fresh
  | none => fresh

/-- The statistics dictionary built by `PIPACrawler.crawl` (crawler.py
lines 366-373); `privateCount` is the `'private'` entry. -/
structure Results where
  total : Nat
  success : Nat
  failed : Nat
  privateCount : Nat
  not_found : Nat
  resolutions : List (Nat × String × (Nat × Nat))
deriving DecidableEq, Repr

/-- The failure sub-classification of `crawl` (crawler.py lines 407-410):
match the lowercased reason string against the substrings `"private"` and
`"not found"`. -/
def classifyFailure (acc : Results) (result : String) : Results :=
  if strContains (pyLower result) "private" then
    { acc with privateCount := acc.privateCount + 1 }
  else if strContains (pyLower result) "not found" then
    { acc with not_found := acc.not_found + 1 }
  else
    acc

/-- One iteration of the sequential loop of `crawl` (crawler.py lines
399-413): the outcome is `Except.error ()` when `download_image` raised,
which the `except` clause turns into a bare failure. -/
def crawlStep (acc : Results) (idxpid : Nat × String)
    (outcome : Except Unit DLRet) : Results :=
  match outcome with
  | .error _ => { acc with failed := acc.failed + 1 }
  | .ok (succ, result, resolution) =>
    if succ then
      { acc with
        success := acc.success + 1,
        resolutions := acc.resolutions ++ [(idxpid.1, idxpid.2, resolution)] }
    else
      classifyFailure { acc with failed := acc.failed + 1 } result

/-- The initial statistics of `crawl` (crawler.py lines 366-373). -/
def initResults (total : Nat) : Results :=
  { total := total, success := 0, failed := 0, privateCount := 0,
    not_found := 0, resolutions := [] }

/-- `PIPACrawler.crawl` with `num_workers = 1` (crawler.py lines 350-430,
sequential branch): parse the ids, download each in order threading the
filesystem, and fold the outcomes into the statistics. The pure model of
`download_image` cannot raise, so every outcome enters `crawlStep` as
`Except.ok`. -/
def crawlSeq (cfg : Config) (env : Env) (lines : List String)
    (limit : Option Nat) (fs : FS) : Results × FS :=
  let ids := parse_image_ids lines limit
  ids.foldl
    (fun acc ip =>
      let r := download_image cfg env ip.1 ip.2 acc.2
      (crawlStep acc.1 ip (.ok r.1), r.2.1))
    (initResults ids.length, fs)

/-- A page-fetch outcome that `get_image_urls` retries on: a transport
exception, or a status other than 200 and 404 (crawler.py lines 215-221). -/
def retryablePage : PageOutcome → Bool
  | .exn => true
  | .ok s _ => decide (s ≠ 200) && decide (s ≠ 404)

/-- The sequential loop of `crawl` as a fold of `crawlStep` over a list of
per-record outcomes (each either a returned tuple or a raised exception). -/
def crawlFold (steps : List ((Nat × String) × Except Unit DLRet))
    (acc : Results) : Results :=
  steps.foldl (fun a s => crawlStep a s.1 s.2) acc

/-- The per-record outcomes that the sequential loop of `crawlSeq` feeds to
`crawlStep`, threading the filesystem through successive
`download_image` calls. -/
def seqSteps (cfg : Config) (env : Env) :
    List (Nat × String) → FS → List ((Nat × String) × Except Unit DLRet)
  | [], _ => []
  | ip :: rest, fs =>
    (ip, .ok (download_image cfg env ip.1 ip.2 fs).1) ::
      seqSteps cfg env rest (download_image cfg env ip.1 ip.2 fs).2.1

/-! ### Concrete fixtures

Small closed configurations, environments and filesystems used to evaluate
the model on the inputs named by the specification. -/

/-- A crawler configured with an empty output directory (so the target path
of index `i` is `{i:05d}.jpg`), three retries and unit delay. -/
def cfgA : Config := { output_dir := "", max_retries := 3, delay := 1 }

/-- A downloadable payload of three bytes decoding as a 10x20 image. -/
def payA : Payload := { size := 3, dims := some (10, 20) }

/-- The empty filesystem. -/
def fsEmpty : FS := fun _ => none

/-- The end-to-end environment of the specification: photo id `111`
resolves to one valid `https` URL whose download succeeds, and the page
fetch for photo id `222` returns HTTP 404. -/
def envEnd : Env :=
  { pageResp := fun pid _ =>
      if pid = "111" then .ok 200 "page111"
      else if pid = "222" then .ok 404 "gone"
      else .exn
    extract := fun body =>
      if body = "page111" then [("Large", "https://img/111_b.jpg")] else []
    dlResp := fun url _ =>
      if url = "https://img/111_b.jpg" then .ok 200 payA else .exn }

/-- An environment whose every page fetch returns HTTP 200 with a body
containing the private-photo marker. -/
def envPriv : Env :=
  { pageResp := fun _ _ => .ok 200 "Oops! This photo is private, sorry."
    extract := fun _ => [("Large", "unused")]
    dlResp := fun _ _ => .exn }

/-- An environment whose every page fetch returns HTTP 404 and whose every
image download raises. -/
def envNF : Env :=
  { pageResp := fun _ _ => .ok 404 "gone"
    extract := fun _ => []
    dlResp := fun _ _ => .exn }

/-- A payload that does not decode as an image (a corrupt file). -/
def corruptPay : Payload := { size := 7, dims := none }

/-- A filesystem holding a corrupt file at `00000.jpg`. -/
def fsCorrupt : FS :=
  fun x => if x = "00000.jpg" then some corruptPay else none

/-- A filesystem holding a valid 3x4 image of seven bytes at `00000.jpg`. -/
def fsValid : FS :=
  fun x => if x = "00000.jpg" then some { size := 7, dims := some (3, 4) }
    else none

/-- An environment where URL `u1` always answers HTTP 410 and URL `u2`
succeeds on its first attempt. -/
def env410 : Env :=
  { pageResp := fun _ _ => .exn
    extract := fun _ => []
    dlResp := fun url a =>
      if url = "u1" then .ok 410 { size := 0, dims := none }
      else if url = "u2" && a = 0 then .ok 200 payA
      else .exn }

/-- An environment whose every image download answers HTTP 200 with a
zero-byte payload. -/
def envEmpty : Env :=
  { pageResp := fun _ _ => .exn
    extract := fun _ => []
    dlResp := fun _ _ => .ok 200 { size := 0, dims := none } }

/-- A crawler with three retries and a delay of two seconds. -/
def cfgB : Config := { output_dir := "", max_retries := 3, delay := 2 }

/-- An environment whose every page fetch returns HTTP 500. -/
def env500 : Env :=
  { pageResp := fun _ _ => .ok 500 "server error"
    extract := fun _ => []
    dlResp := fun _ _ => .exn }

/-! ### Theorems -/

/-- With no limit, the parse loop keeps, for each line paired with its
line number, the second whitespace field exactly when at least two fields
are present. -/
theorem parseLoop_none_eq (lines : List String) : ∀ i : Nat,
    parseLoop none lines i =
      (List.enumFrom i lines).filterMap fun p =>
        if 2 ≤ (pySplit (pyStrip p.2)).length then
          some (p.1, (pySplit (pyStrip p.2)).getD 1 "")
        else none := by
  induction lines with
  | nil => intro i; rfl
  | cons l rest ih =>
    intro i
    by_cases h : 2 ≤ (pySplit (pyStrip l)).length
    · simp [parseLoop, limitTruthy, List.enumFrom, List.filterMap_cons, h, ih]
    · simp [parseLoop, limitTruthy, List.enumFrom, List.filterMap_cons, h, ih]

/-- Claim C7: with no limit, `parse_image_ids` produces a record for a
line exactly when splitting the stripped line on whitespace yields at
least two tokens; each record pairs the line's 0-based position with the
second token, and skipped lines do not shift the positions of later
records (the positions come from `enum`, the enumeration of all lines). -/
theorem c7_parse_records (lines : List String) :
    parse_image_ids lines none =
      lines.enum.filterMap fun p =>
        if 2 ≤ (pySplit (pyStrip p.2)).length then
          some (p.1, (pySplit (pyStrip p.2)).getD 1 "")
        else none := by
  rw [parse_image_ids, parseLoop_none_eq]
  rfl

/-- A limit of `0` is falsy in Python, so the parse loop never breaks on
it: it behaves as no limit at all. -/
theorem parseLoop_zero_eq_none (lines : List String) : ∀ i : Nat,
    parseLoop (some 0) lines i = parseLoop none lines i := by
  induction lines with
  | nil => intro i; rfl
  | cons l rest ih =>
    intro i
    simp [parseLoop, limitTruthy, ih]

/-- Claim C10: calling `parse_image_ids` with `limit = 0` does not
truncate the input to zero records: a zero limit is treated exactly as no
limit. -/
theorem c10_zero_limit_no_truncation (lines : List String) :
    parse_image_ids lines (some 0) = parse_image_ids lines none :=
  parseLoop_zero_eq_none lines 0

/-- A string whose data starts with a character other than a slash does
not start with `"//"`, nor after appending anything to it. -/
theorem pyStartswith_slashslash_false (pre url : String) (c : Char)
    (l : List Char) (hpre : pre.data = c :: l) (hc : c ≠ '/') :
    pyStartswith (pre ++ url) "//" = false := by
  rw [pyStartswith]
  apply Bool.eq_false_iff.mpr
  intro hco
  rw [ List.isPrefixOf_iff_prefix, String.data_append, hpre] at hco
  rcases hco with ⟨t, ht⟩
  rw [show ("//").data = ['/', '/'] from rfl] at ht
  simp only [List.cons_append] at ht
  injection ht with h1 _
  exact hc h1.symm

/-- Appending to the scheme fragment keeps it a prefix. -/
theorem pyStartswith_https_append (url : String) :
    pyStartswith ("https://" ++ url) "https://" = true := by
  rw [pyStartswith, List.isPrefixOf_iff_prefix, String.data_append]
  exact ⟨url.data, rfl⟩

/-- Prefixing `"https:"` to a protocol-relative URL yields a URL starting
with `"https://"`. -/
theorem pyStartswith_https_colon (url : String) (t : List Char)
    (ht : url.data = '/' :: '/' :: t) :
    pyStartswith ("https:" ++ url) "https://" = true := by
  rw [pyStartswith, List.isPrefixOf_iff_prefix, String.data_append, ht]
  rw [show ("https:").data ++ ('/' :: '/' :: t) = ("https://").data ++ t
      from rfl]
  exact ⟨t, rfl⟩

/-- Claim C8: `_ensure_url_scheme` maps a protocol-relative URL to
`"https:" + url`, a scheme-less URL to `"https://" + url`, leaves a URL
starting with `"http://"` or `"https://"` unchanged, and is idempotent. -/
theorem c8_ensure_scheme_cases (url : String) :
    (pyStartswith url "//" = true →
      ensure_url_scheme url = "https:" ++ url) ∧
    (pyStartswith url "//" = false → pyStartswith url "http://" = false →
      pyStartswith url "https://" = false →
      ensure_url_scheme url = "https://" ++ url) ∧
    (pyStartswith url "//" = false →
      (pyStartswith url "http://" = true ∨
        pyStartswith url "https://" = true) →
      ensure_url_scheme url = url) ∧
    ensure_url_scheme (ensure_url_scheme url) = ensure_url_scheme url := by
  refine ⟨?_, ?_, ?_, ?_⟩
  · intro h; simp [ensure_url_scheme, h]
  · intro h1 h2 h3; simp [ensure_url_scheme, h1, h2, h3]
  · intro h1 h2
    rcases h2 with h2 | h2 <;> simp [ensure_url_scheme, h1, h2]
  · by_cases h : pyStartswith url "//" = true
    · obtain ⟨t, ht⟩ : ∃ t, url.data = '/' :: '/' :: t := by
        rw [pyStartswith, List.isPrefixOf_iff_prefix] at h
        rcases h with ⟨t, ht⟩
        refine ⟨t, ?_⟩
        rw [← ht, show ("//").data = ['/', '/'] from rfl]
        simp
      have hfu : ensure_url_scheme url = "https:" ++ url := by
        simp [ensure_url_scheme, h]
      rw [hfu]
      have hA : pyStartswith ("https:" ++ url) "//" = false :=
        pyStartswith_slashslash_false "https:" url 'h' "ttps:".data rfl
          (by decide)
      have hB : pyStartswith ("https:" ++ url) "https://" = true :=
        pyStartswith_https_colon url t ht
      simp [ensure_url_scheme, hA, hB]
    · by_cases h2 : pyStartswith url "http://" = true
      · simp [ensure_url_scheme, h, h2]
      · by_cases h3 : pyStartswith url "https://" = true
        · simp [ensure_url_scheme, h, h3]
        · have hfu : ensure_url_scheme url = "https://" ++ url := by
            simp [ensure_url_scheme, h, h2, h3]
          rw [hfu]
          have hA : pyStartswith ("https://" ++ url) "//" = false :=
            pyStartswith_slashslash_false "https://" url 'h'
              "ttps://".data rfl (by decide)
          have hB : pyStartswith ("https://" ++ url) "https://" = true :=
            pyStartswith_https_append url
          simp [ensure_url_scheme, hA, hB]

/-- Witness for C8: the three branch cases and idempotence, evaluated on
concrete URLs. -/
theorem c8_ensure_scheme_cases_witness :
    ensure_url_scheme "//x.com/a" = "https:" ++ "//x.com/a" ∧
    ensure_url_scheme "x.com/a" = "https://" ++ "x.com/a" ∧
    ensure_url_scheme "http://x.com/a" = "http://x.com/a" ∧
    ensure_url_scheme (ensure_url_scheme "//x.com/a") =
      ensure_url_scheme "//x.com/a" :=
  ⟨(c8_ensure_scheme_cases "//x.com/a").1 (by decide),
   (c8_ensure_scheme_cases "x.com/a").2.1 (by decide) (by decide)
     (by decide),
   (c8_ensure_scheme_cases "http://x.com/a").2.2.1 (by decide)
     (Or.inl (by decide)),
   (c8_ensure_scheme_cases "//x.com/a").2.2.2⟩

/-- Counterexample to claim C3 as stated: with a file already present at
the derived target path `00000.jpg` that does not open as an image,
`download_image` does call the resolver (a network request) and does not
return success. -/
theorem c3_counterexample_corrupt_file :
    fsCorrupt "00000.jpg" = some corruptPay ∧
    (download_image cfgA envNF 0 "9" fsCorrupt).2.2 = [Event.resolveCall] ∧
    (download_image cfgA envNF 0 "9" fsCorrupt).1 =
      (false, "Could not find any image URLs", (0, 0)) :=
  ⟨rfl, rfl, rfl⟩

/-- Claim C3 (amended): for every (position, identifier) pair such that a
file already exists at the derived target path and opens as a valid
image, `download_image` performs no network request at all — its event
trace is empty — and returns success with the existing path and the
image's dimensions, leaving the filesystem unchanged. -/
theorem c3_existing_valid_file_skips (cfg : Config) (env : Env) (idx : Nat)
    (pid : String) (fs : FS) (p : Payload) (wh : Nat × Nat)
    (h1 : fs (joinPath cfg.output_dir (pad5 idx ++ ".jpg")) = some p)
    (h2 : p.dims = some wh) :
    download_image cfg env idx pid fs =
      ((true, joinPath cfg.output_dir (pad5 idx ++ ".jpg"), wh), fs, []) := by
  rw [download_image]
  simp only [h1, h2]

/-- Witness for the amended C3: a filesystem with a valid 3x4 image at
`00000.jpg` makes `download_image` return it with an empty trace. -/
theorem c3_existing_valid_file_skips_witness :
    fsValid (joinPath cfgA.output_dir (pad5 0 ++ ".jpg")) =
      some { size := 7, dims := some (3, 4) } ∧
    download_image cfgA envNF 0 "9" fsValid =
      ((true, joinPath cfgA.output_dir (pad5 0 ++ ".jpg"), (3, 4)),
        fsValid, []) :=
  ⟨rfl, c3_existing_valid_file_skips cfgA envNF 0 "9" fsValid
    { size := 7, dims := some (3, 4) } (3, 4) rfl rfl⟩

/-- Claim C4: when the first download attempt for a candidate URL returns
HTTP 410, the attempt loop abandons the URL at once — its whole trace is
the single request, with no sleeps and no further attempts, leaving the
filesystem unchanged — and the outer loop proceeds directly to the next
candidate. -/
theorem c4_410_abandons_url (cfg : Config) (env : Env) (url fn : String)
    (fs : FS) (rest : List String) (p : Payload)
    (hdl : env.dlResp url 0 = .ok 410 p) (hpos : 0 < cfg.max_retries) :
    attemptLoop cfg env url fn 0 cfg.max_retries fs =
      (none, fs, [Event.httpGet url]) ∧
    tryUrls cfg env fn (url :: rest) fs =
      ((tryUrls cfg env fn rest fs).1, (tryUrls cfg env fn rest fs).2.1,
        Event.httpGet url :: (tryUrls cfg env fn rest fs).2.2) := by
  obtain ⟨k, hk⟩ : ∃ k, cfg.max_retries = k + 1 :=
    ⟨cfg.max_retries - 1, (Nat.succ_pred_eq_of_pos hpos).symm⟩
  have h1 : attemptLoop cfg env url fn 0 cfg.max_retries fs =
      (none, fs, [Event.httpGet url]) := by
    rw [hk]
    simp [attemptLoop, hdl]
  exact ⟨h1, by simp [tryUrls, h1]⟩

/-- Witness for C4: URL `u1` answering 410 on its first attempt is
abandoned after one request and the loop moves on to `u2`. -/
theorem c4_410_abandons_url_witness :
    env410.dlResp "u1" 0 = .ok 410 { size := 0, dims := none } ∧
    0 < cfgA.max_retries ∧
    (attemptLoop cfgA env410 "u1" "f.jpg" 0 cfgA.max_retries fsEmpty =
      (none, fsEmpty, [Event.httpGet "u1"]) ∧
    tryUrls cfgA env410 "f.jpg" ["u1", "u2"] fsEmpty =
      ((tryUrls cfgA env410 "f.jpg" ["u2"] fsEmpty).1,
       (tryUrls cfgA env410 "f.jpg" ["u2"] fsEmpty).2.1,
        Event.httpGet "u1" ::
          (tryUrls cfgA env410 "f.jpg" ["u2"] fsEmpty).2.2)) :=
  ⟨rfl, by decide,
   c4_410_abandons_url cfgA env410 "u1" "f.jpg" fsEmpty ["u2"]
     { size := 0, dims := none } rfl (by decide)⟩

/-- Claim C5: a download attempt answered by HTTP 200 with a zero-byte
payload is a failure: the written empty file is removed again — the
target path holds nothing afterwards — and the loop sleeps and retries,
so the attempt itself never yields success. -/
theorem c5_empty_payload_removed (cfg : Config) (env : Env)
    (url fn : String) (attempt fuel : Nat) (fs : FS) (p : Payload)
    (hdl : env.dlResp url attempt = .ok 200 p) (hz : p.size = 0) :
    attemptLoop cfg env url fn attempt (fuel + 1) fs =
      ((attemptLoop cfg env url fn (attempt + 1) fuel
          ((fs.write fn p).remove fn)).1,
       (attemptLoop cfg env url fn (attempt + 1) fuel
          ((fs.write fn p).remove fn)).2.1,
       Event.httpGet url :: Event.sleepFor (cfg.delay * (attempt + 1)) ::
         (attemptLoop cfg env url fn (attempt + 1) fuel
            ((fs.write fn p).remove fn)).2.2) ∧
    ((fs.write fn p).remove fn) fn = none := by
  constructor
  · simp [attemptLoop, hdl, hz]
  · simp [FS.remove]

/-- Witness for C5: a zero-byte 200 response leaves nothing at the target
path and the loop moves to the next attempt. -/
theorem c5_empty_payload_removed_witness :
    envEmpty.dlResp "u" 0 = .ok 200 { size := 0, dims := none } ∧
    (attemptLoop cfgA envEmpty "u" "f.jpg" 0 (2 + 1) fsEmpty =
      ((attemptLoop cfgA envEmpty "u" "f.jpg" 1 2
          ((fsEmpty.write "f.jpg" { size := 0, dims := none }).remove
            "f.jpg")).1,
       (attemptLoop cfgA envEmpty "u" "f.jpg" 1 2
          ((fsEmpty.write "f.jpg" { size := 0, dims := none }).remove
            "f.jpg")).2.1,
       Event.httpGet "u" :: Event.sleepFor (cfgA.delay * (0 + 1)) ::
         (attemptLoop cfgA envEmpty "u" "f.jpg" 1 2
            ((fsEmpty.write "f.jpg" { size := 0, dims := none }).remove
              "f.jpg")).2.2) ∧
    ((fsEmpty.write "f.jpg" { size := 0, dims := none }).remove "f.jpg")
      "f.jpg" = none) :=
  ⟨rfl, c5_empty_payload_removed cfgA envEmpty "u" "f.jpg" 0 2 fsEmpty
    { size := 0, dims := none } rfl rfl⟩

/-- When every remaining page-fetch attempt is retryable (a transport
exception or a non-200, non-404 status), the resolution loop sleeps
`delay * (attempt + 1)` before each retry and ends with no result. -/
theorem getUrlsLoop_all_retry (cfg : Config) (env : Env) (pid : String) :
    ∀ (fuel attempt : Nat),
    (∀ i, attempt ≤ i → i < attempt + fuel →
      retryablePage (env.pageResp pid i) = true) →
    getUrlsLoop cfg env pid attempt fuel =
      (none, (List.range fuel).map fun j => cfg.delay * (attempt + j + 1)) := by
  intro fuel
  induction fuel with
  | zero => intro attempt _; rfl
  | succ n ih =>
    intro attempt h
    have hcur := h attempt le_rfl (by omega)
    have htail : ∀ i, attempt + 1 ≤ i → i < attempt + 1 + n →
        retryablePage (env.pageResp pid i) = true := by
      intro i hi1 hi2
      exact h i (by omega) (by omega)
    have hmap : cfg.delay * (attempt + 1) ::
        (List.range n).map (fun j => cfg.delay * (attempt + 1 + j + 1)) =
        (List.range (n + 1)).map fun j => cfg.delay * (attempt + j + 1) := by
      rw [List.range_succ_eq_map, List.map_cons, List.map_map]
      congr 1
      apply List.map_congr_left
      intro a _
      simp only [Function.comp_apply, Nat.succ_eq_add_one]
      congr 1
      omega
    cases hc : env.pageResp pid attempt with
    | ok s body =>
      rw [hc] at hcur
      simp only [retryablePage, Bool.and_eq_true, decide_eq_true_eq] at hcur
      simp only [getUrlsLoop, hc, if_neg hcur.1, if_neg hcur.2,
        ih (attempt + 1) htail]
      rw [← hmap]
    | exn =>
      simp only [getUrlsLoop, hc, ih (attempt + 1) htail]
      rw [← hmap]

/-- Claim C6: during resolution, every non-200, non-404 response and
every transport exception triggers a sleep of `delay * (attempt + 1)`
(1-based attempt number) followed by a retry; after `max_retries` such
attempts with no 200, 404 or private outcome, `get_image_urls` returns
absent, having slept `delay * 1, delay * 2, ..., delay * max_retries`. -/
theorem c6_retry_backoff_then_fail (cfg : Config) (env : Env)
    (pid : String)
    (h : ∀ i, i < cfg.max_retries → retryablePage (env.pageResp pid i) = true) :
    get_image_urls cfg env pid =
      (none, (List.range cfg.max_retries).map fun i => cfg.delay * (i + 1)) := by
  rw [get_image_urls,
    getUrlsLoop_all_retry cfg env pid cfg.max_retries 0
      (fun i _ hi => h i (by omega))]
  simp

/-- Witness for C6: three straight HTTP 500 responses with delay 2 give
sleeps of 2, 4 and 6 seconds and a failed resolution. -/
theorem c6_retry_backoff_then_fail_witness :
    (∀ i, i < cfgB.max_retries →
      retryablePage (env500.pageResp "z" i) = true) ∧
    get_image_urls cfgB env500 "z" = (none, [2, 4, 6]) := by
  refine ⟨by decide, ?_⟩
  rw [c6_retry_backoff_then_fail cfgB env500 "z" (by decide)]
  decide

/-- One `crawlStep` adds exactly one to `success + failed`, adds at most
one to `privateCount + not_found` and only together with a `failed`
increment, and never touches `total`. -/
theorem crawlStep_counts (acc : Results) (ip : Nat × String)
    (o : Except Unit DLRet) :
    (crawlStep acc ip o).success + (crawlStep acc ip o).failed =
      acc.success + acc.failed + 1 ∧
    (crawlStep acc ip o).privateCount + (crawlStep acc ip o).not_found +
        acc.failed ≤
      acc.privateCount + acc.not_found + (crawlStep acc ip o).failed ∧
    (crawlStep acc ip o).total = acc.total := by
  rcases o with _ | ⟨succ, result, res⟩
  · simp [crawlStep]
    omega
  · cases succ
    · simp only [crawlStep, classifyFailure]
      split_ifs <;> simp <;> omega
    · simp [crawlStep]
      omega

/-- Folding `crawlStep` over any outcome list grows `success + failed` by
the number of outcomes, grows `privateCount + not_found` by at most the
growth of `failed`, and preserves `total`. -/
theorem crawlFold_inv (steps : List ((Nat × String) × Except Unit DLRet)) :
    ∀ acc : Results,
    (crawlFold steps acc).success + (crawlFold steps acc).failed =
      acc.success + acc.failed + steps.length ∧
    (crawlFold steps acc).privateCount + (crawlFold steps acc).not_found +
        acc.failed ≤
      acc.privateCount + acc.not_found + (crawlFold steps acc).failed ∧
    (crawlFold steps acc).total = acc.total := by
  induction steps with
  | nil => intro acc; simp [crawlFold]
  | cons s rest ih =>
    intro acc
    have hstep := crawlStep_counts acc s.1 s.2
    have hfold : crawlFold (s :: rest) acc =
        crawlFold rest (crawlStep acc s.1 s.2) := rfl
    have htail := ih (crawlStep acc s.1 s.2)
    rw [hfold]
    refine ⟨?_, ?_, ?_⟩
    · rw [htail.1, hstep.1]
      simp [List.length_cons]
      omega
    · omega
    · rw [htail.2.2, hstep.2.2]

/-- The `Results` component of `crawlSeq` is the fold of `crawlStep` over
the outcomes collected by `seqSteps`. -/
theorem crawlSeq_fst_eq_crawlFold (cfg : Config) (env : Env) :
    ∀ (ids : List (Nat × String)) (acc : Results) (fs : FS),
    (ids.foldl
      (fun acc ip =>
        let r := download_image cfg env ip.1 ip.2 acc.2
        (crawlStep acc.1 ip (.ok r.1), r.2.1))
      (acc, fs)).1 = crawlFold (seqSteps cfg env ids fs) acc := by
  intro ids
  induction ids with
  | nil => intro acc fs; rfl
  | cons ip rest ih =>
    intro acc fs
    simp only [List.foldl_cons, seqSteps, crawlFold, List.foldl_cons]
    exact ih _ _

/-- `seqSteps` yields one outcome per record. -/
theorem seqSteps_length (cfg : Config) (env : Env) :
    ∀ (ids : List (Nat × String)) (fs : FS),
    (seqSteps cfg env ids fs).length = ids.length := by
  intro ids
  induction ids with
  | nil => intro fs; rfl
  | cons ip rest ih =>
    intro fs
    simp only [seqSteps, List.length_cons, ih]

/-- Claim C9: the loop of `crawl` contributes every record to exactly one
of `success` or `failed` — including records whose processing raises an
exception, modelled by an `Except.error` outcome — so after any fold of
outcomes `success + failed = total` holds with `total` the number of
records, and `privateCount + not_found ≤ failed`; in particular any
sequential crawl's statistics satisfy both. -/
theorem c9_stats_invariant :
    (∀ (steps : List ((Nat × String) × Except Unit DLRet)),
      (crawlFold steps (initResults steps.length)).success +
          (crawlFold steps (initResults steps.length)).failed =
        (crawlFold steps (initResults steps.length)).total ∧
      (crawlFold steps (initResults steps.length)).total = steps.length ∧
      (crawlFold steps (initResults steps.length)).privateCount +
          (crawlFold steps (initResults steps.length)).not_found ≤
        (crawlFold steps (initResults steps.length)).failed) ∧
    (∀ (cfg : Config) (env : Env) (lines : List String)
        (limit : Option Nat) (fs : FS),
      (crawlSeq cfg env lines limit fs).1.success +
          (crawlSeq cfg env lines limit fs).1.failed =
        (crawlSeq cfg env lines limit fs).1.total ∧
      (crawlSeq cfg env lines limit fs).1.total =
        (parse_image_ids lines limit).length ∧
      (crawlSeq cfg env lines limit fs).1.privateCount +
          (crawlSeq cfg env lines limit fs).1.not_found ≤
        (crawlSeq cfg env lines limit fs).1.failed) := by
  have key : ∀ (steps : List ((Nat × String) × Except Unit DLRet)) (n : Nat),
      (crawlFold steps (initResults n)).success +
          (crawlFold steps (initResults n)).failed = steps.length ∧
      (crawlFold steps (initResults n)).total = n ∧
      (crawlFold steps (initResults n)).privateCount +
          (crawlFold steps (initResults n)).not_found ≤
        (crawlFold steps (initResults n)).failed := by
    intro steps n
    have h := crawlFold_inv steps (initResults n)
    simp [initResults] at h ⊢
    refine ⟨by omega, by omega, by omega⟩
  constructor
  · intro steps
    have h := key steps steps.length
    exact ⟨by rw [h.1, h.2.1], h.2.1, h.2.2⟩
  · intro cfg env lines limit fs
    have hq : (crawlSeq cfg env lines limit fs).1 =
        crawlFold
          (seqSteps cfg env (parse_image_ids lines limit) fs)
          (initResults (parse_image_ids lines limit).length) := by
      rw [crawlSeq]
      exact crawlSeq_fst_eq_crawlFold cfg env _ _ fs
    have h := key (seqSteps cfg env (parse_image_ids lines limit) fs)
      (parse_image_ids lines limit).length
    rw [hq]
    refine ⟨?_, h.2.1, h.2.2⟩
    rw [h.1, seqSteps_length, h.2.1]

/-- Claim C1, evaluated: on the input lines `"a 111"` and `"b 222"` with a
resolver environment giving identifier `111` one valid `https` URL whose
download succeeds and identifier `222` an HTTP 404 page, the sequential
crawl writes the downloaded payload to `00000.jpg`, leaves no `00001.jpg`,
and returns success=1 and failed=1 — but `not_found` is 0, not 1: the
failure reason returned by `download_image` is the generic
`"Could not find any image URLs"`, which does not contain the substring
`"not found"` that the classifier of `crawl` matches on. -/
theorem c1_end_to_end_eval :
    (crawlSeq cfgA envEnd ["a 111", "b 222"] none fsEmpty).1 =
      { total := 2, success := 1, failed := 1, privateCount := 0,
        not_found := 0, resolutions := [(0, "111", (10, 20))] } ∧
    (crawlSeq cfgA envEnd ["a 111", "b 222"] none fsEmpty).2 "00000.jpg" =
      some payA ∧
    (crawlSeq cfgA envEnd ["a 111", "b 222"] none fsEmpty).2 "00001.jpg" =
      none :=
  ⟨rfl, rfl, rfl⟩

/-- Claim C2, evaluated: an HTTP 200 page containing the private marker
makes `get_image_urls` return absent immediately, with no sleep and hence
no retry — but the orchestrator does not count the failure under
`privateCount`: `download_image` reports the generic reason
`"Could not find any image URLs"`, which does not contain the substring
`"private"`, so the counter stays 0. -/
theorem c2_private_eval :
    get_image_urls cfgA envPriv "5" = (none, []) ∧
    (download_image cfgA envPriv 0 "5" fsEmpty).1 =
      (false, "Could not find any image URLs", (0, 0)) ∧
    (crawlSeq cfgA envPriv ["x 5"] none fsEmpty).1 =
      { total := 1, success := 0, failed := 1, privateCount := 0,
        not_found := 0, resolutions := [] } :=
  ⟨rfl, rfl, rfl⟩

end PIPA
